import Mathlib

/-!
Shallow embedding of the WSG-50 gripper driver node
(wsg50_driver/src/main.cpp): the motion service handlers with their
single-flight guard (in_motion), pre-send validation, the shared
recv_ack await loop with cancellation (stop_called) and absolute
deadline, the stopSrv drain, the streaming read thread iteration, and
the startup size-class selection.

Floating-point widths, speeds and times are embedded as rationals;
machine overflow plays no role at the values the driver handles.
-/

namespace Wsg50

/-- Device status codes of the gripper protocol (wsg50/common.h, not
under src; the spec lists the enumeration abstractly, so only the codes
main.cpp names are distinguished and all others are `other`). -/
inductive Status where
  | E_SUCCESS
  | E_CMD_PENDING
  | E_ALREADY_RUNNING
  | E_CMD_ABORTED
  | E_RANGE_ERROR
  | E_AXIS_BLOCKED
  | other (code : Nat)
deriving DecidableEq

/-- Result of one recv_ack call, mirroring the comment in main.cpp:
0 when no message is available, 1 when a message is available and
correct (with its status), -1 on error. -/
inductive Recv where
  | noMsg
  | msg (s : Status)
  | err
deriving DecidableEq

/-- One iteration of a motion-service await loop, as the handler sees
it: the recv_ack result, the ros clock value at the deadline check, and
whether a stop service call was processed during ros spinOnce in this
iteration (which sets stop_called while a command is in motion). -/
structure LoopEvt where
  recv : Recv
  t : Rat
  stopCall : Bool
deriving DecidableEq

/-- How a motion-service await loop ends. `exhausted` is the model
artifact for an event list that ends while the loop would still be
running. -/
inductive AwaitOutcome where
  | aborted
  | fatal
  | finished (r : Recv)
  | exhausted
deriving DecidableEq

/-- const float timeout_commands = 30.0 (main.cpp line 92). -/
def timeout_commands : Rat := 30

/-- The do/while await loop shared by moveSrv, graspSrv, releaseSrv and
incrementSrv (main.cpp lines 170-190 and its copies): each iteration
calls recv_ack, spins once (after which stop_called may be set and is
checked), compares the clock against the fixed issuance time tbegin
(quit on expiry), and loops while no message is available or the status
is E_CMD_PENDING. -/
def awaitLoop (tbegin : Rat) : List LoopEvt → AwaitOutcome
  | [] => .exhausted
  | e :: rest =>
    if e.stopCall then .aborted
    else if e.t - tbegin > timeout_commands then .fatal
    else
      match e.recv with
      | .noMsg => awaitLoop tbegin rest
      | .msg s => if s = .E_CMD_PENDING then awaitLoop tbegin rest else .finished (.msg s)
      | .err => .finished .err

/-- The homingSrv await loop (main.cpp lines 413-423): identical to
awaitLoop except that homingSrv never calls ros spinOnce inside its
loop, so stop_called is never consulted there. -/
def homingLoop (tbegin : Rat) : List LoopEvt → AwaitOutcome
  | [] => .exhausted
  | e :: rest =>
    if e.t - tbegin > timeout_commands then .fatal
    else
      match e.recv with
      | .noMsg => homingLoop tbegin rest
      | .msg s => if s = .E_CMD_PENDING then homingLoop tbegin rest else .finished (.msg s)
      | .err => .finished .err

/-- Value assigned to the service response error field: either a device
status (the C++ code assigns the status_t value) or the literal 255
used for send failures and recv_ack errors. -/
inductive SrvError where
  | st (s : Status)
  | e255
deriving DecidableEq

/-- A command frame sent on the transport, identified by which async
send function main.cpp calls and its arguments. -/
inductive FrameOut where
  | moveCmd (width speed : Rat) (relative : Bool)
  | graspCmd (width speed : Rat)
  | releaseCmd (width speed : Rat)
  | homingCmd
  | stopCmd (ignoreResponse : Bool)
deriving DecidableEq

/-- Observable outcome of one motion service handler invocation:
the response error field (none = never assigned, the ros default),
the frames sent on the transport, the final value of the in_motion
single-flight guard, whether the 0.1 s settle sleep ran, whether
quit() was reached, the handler return value, and whether the speed
envelope warning was logged. -/
structure MotionOut where
  error : Option SrvError
  frames : List FrameOut
  inMotionAfter : Bool
  slept : Bool
  fatal : Bool
  retval : Bool
  speedWarn : Bool
deriving DecidableEq

/-- The common tail of moveSrv, graspSrv, releaseSrv and incrementSrv
after validation (main.cpp lines 162-206 and its copies): attempt the
async send; on success set in_motion, run the await loop; on the
stop_called path return E_CMD_ABORTED immediately (no settle sleep);
on deadline expiry quit; otherwise sleep 0.1 s, clear in_motion and
map the loop result to the response error (255 when recv_ack errored,
else the terminal status). A failed async send yields error 255 with
nothing further. -/
def runMotion (frame : FrameOut) (warn : Bool) (sendOk : Bool) (tbegin : Rat)
    (evts : List LoopEvt) : MotionOut :=
  if sendOk then
    match awaitLoop tbegin evts with
    | .aborted =>
      { error := some (.st .E_CMD_ABORTED), frames := [frame], inMotionAfter := false,
        slept := false, fatal := false, retval := true, speedWarn := warn }
    | .fatal =>
      { error := none, frames := [frame], inMotionAfter := true,
        slept := false, fatal := true, retval := true, speedWarn := warn }
    | .finished r =>
      { error := some (match r with | .err => .e255 | .msg s => .st s | .noMsg => .e255),
        frames := [frame], inMotionAfter := false,
        slept := true, fatal := false, retval := true, speedWarn := warn }
    | .exhausted =>
      { error := none, frames := [frame], inMotionAfter := true,
        slept := false, fatal := false, retval := true, speedWarn := warn }
  else
    { error := some .e255, frames := [], inMotionAfter := false,
      slept := false, fatal := false, retval := true, speedWarn := warn }

/-- Request of the Move service: target width and speed. -/
structure MoveReq where
  width : Rat
  speed : Rat
deriving DecidableEq

/-- moveSrv (main.cpp lines 143-207): reject with E_ALREADY_RUNNING if
in_motion; hard-reject widths outside [0, g_size] with E_RANGE_ERROR
(returning false, no frame sent); warn (only) when the speed is below
0.0 or above 420.0; then send move_async(width, speed, false) and run
the await loop. -/
def moveSrv (g_size : Rat) (in_motion : Bool) (req : MoveReq) (sendOk : Bool)
    (tbegin : Rat) (evts : List LoopEvt) : MotionOut :=
  if in_motion then
    { error := some (.st .E_ALREADY_RUNNING), frames := [], inMotionAfter := true,
      slept := false, fatal := false, retval := true, speedWarn := false }
  else if req.width < 0 ∨ req.width > g_size then
    { error := some (.st .E_RANGE_ERROR), frames := [], inMotionAfter := false,
      slept := false, fatal := false, retval := false, speedWarn := false }
  else
    runMotion (.moveCmd req.width req.speed false)
      (if req.speed < 0 ∨ req.speed > 420 then true else false) sendOk tbegin evts

/-- graspSrv (main.cpp lines 209-269): same guard and validation as
moveSrv, sending grasp_async(width, speed). -/
def graspSrv (g_size : Rat) (in_motion : Bool) (req : MoveReq) (sendOk : Bool)
    (tbegin : Rat) (evts : List LoopEvt) : MotionOut :=
  if in_motion then
    { error := some (.st .E_ALREADY_RUNNING), frames := [], inMotionAfter := true,
      slept := false, fatal := false, retval := true, speedWarn := false }
  else if req.width < 0 ∨ req.width > g_size then
    { error := some (.st .E_RANGE_ERROR), frames := [], inMotionAfter := false,
      slept := false, fatal := false, retval := false, speedWarn := false }
  else
    runMotion (.graspCmd req.width req.speed)
      (if req.speed < 0 ∨ req.speed > 420 then true else false) sendOk tbegin evts

/-- releaseSrv (main.cpp lines 341-399): same guard and validation as
moveSrv, sending release_async(width, speed). -/
def releaseSrv (g_size : Rat) (in_motion : Bool) (req : MoveReq) (sendOk : Bool)
    (tbegin : Rat) (evts : List LoopEvt) : MotionOut :=
  if in_motion then
    { error := some (.st .E_ALREADY_RUNNING), frames := [], inMotionAfter := true,
      slept := false, fatal := false, retval := true, speedWarn := false }
  else if req.width < 0 ∨ req.width > g_size then
    { error := some (.st .E_RANGE_ERROR), frames := [], inMotionAfter := false,
      slept := false, fatal := false, retval := false, speedWarn := false }
  else
    runMotion (.releaseCmd req.width req.speed)
      (if req.speed < 0 ∨ req.speed > 420 then true else false) sendOk tbegin evts

/-- Request of the Incr service: a direction string and an increment. -/
structure IncrReq where
  direction : String
  increment : Rat
deriving DecidableEq

/-- GRIPPER_MIN_OPEN (main.cpp line 80). -/
def GRIPPER_MIN_OPEN : Rat := 0

/-- incrementSrv (main.cpp lines 271-339): reject with
E_ALREADY_RUNNING if in_motion; for direction open take
currentOpening + increment clamped above at g_size, for close take
currentOpening - increment clamped below at GRIPPER_MIN_OPEN, in both
cases with speed 1 when the clamped target sits at the limit and 20
otherwise, then send move_async(nextWidth, speed, true) and run the
await loop; for any other direction fall through and return true with
the response error field never assigned. -/
def incrementSrv (g_size : Rat) (in_motion : Bool) (currentOpening : Rat)
    (req : IncrReq) (sendOk : Bool) (tbegin : Rat) (evts : List LoopEvt) : MotionOut :=
  if in_motion then
    { error := some (.st .E_ALREADY_RUNNING), frames := [], inMotionAfter := true,
      slept := false, fatal := false, retval := true, speedWarn := false }
  else if req.direction = "open" then
    let nextWidth0 := currentOpening + req.increment
    let nextWidth := if nextWidth0 ≥ g_size then g_size else nextWidth0
    let speed : Rat := if nextWidth ≥ g_size then 1 else 20
    runMotion (.moveCmd nextWidth speed true) false sendOk tbegin evts
  else if req.direction = "close" then
    let nextWidth0 := currentOpening - req.increment
    let nextWidth := if nextWidth0 ≤ GRIPPER_MIN_OPEN then GRIPPER_MIN_OPEN else nextWidth0
    let speed : Rat := if nextWidth ≤ GRIPPER_MIN_OPEN then 1 else 20
    runMotion (.moveCmd nextWidth speed true) false sendOk tbegin evts
  else
    { error := none, frames := [], inMotionAfter := in_motion,
      slept := false, fatal := false, retval := true, speedWarn := false }

/-- Observable outcome of homingSrv, whose Empty response carries no
error field; the rejection and failure cases are encoded solely in the
boolean handler return value. -/
structure HomeOut where
  frames : List FrameOut
  inMotionAfter : Bool
  slept : Bool
  fatal : Bool
  retval : Bool
deriving DecidableEq

/-- homingSrv (main.cpp lines 401-440): return false if in_motion (no
frame sent, no error code exists in the Empty response); otherwise send
homing_async and run the loop without spinning; after the settle sleep
return false on recv_ack error or non-success terminal status, true on
E_SUCCESS. A failed homing_async falls through to return true. -/
def homingSrv (in_motion : Bool) (sendOk : Bool) (tbegin : Rat)
    (evts : List LoopEvt) : HomeOut :=
  if in_motion then
    { frames := [], inMotionAfter := true, slept := false, fatal := false, retval := false }
  else if sendOk then
    match homingLoop tbegin evts with
    | .fatal =>
      { frames := [.homingCmd], inMotionAfter := true, slept := false,
        fatal := true, retval := true }
    | .finished r =>
      { frames := [.homingCmd], inMotionAfter := false, slept := true, fatal := false,
        retval := match r with | .err => false | .msg s => s = .E_SUCCESS | .noMsg => false }
    | _ =>
      { frames := [.homingCmd], inMotionAfter := true, slept := false,
        fatal := false, retval := true }
  else
    { frames := [], inMotionAfter := false, slept := false, fatal := false, retval := true }

/-- An inbound frame as recv_ack classifies it: the command id it
answers and its status. -/
structure Frame where
  id : Nat
  status : Status
deriving DecidableEq

/-- Modelled from the spec: recv_ack (wsg50/functions, not under src)
reads the next inbound frame without blocking; a frame whose id matches
the awaited one is consumed and surfaced with its status (returning 1),
a frame for a different exchange is consumed but never surfaced here
(demultiplexed elsewhere, returning 0), and an empty link returns 0.
recvFirst runs the stopSrv drain loop, which repeats recv_ack on the
awaited id until it returns nonzero: it yields the status of the first
queued frame carrying that id together with the frames left behind it,
or none when no such frame ever arrives (the drain loop never exits). -/
def recvFirst (id : Nat) : List Frame → Option (Status × List Frame)
  | [] => none
  | f :: rest => if f.id = id then some (f.status, rest) else recvFirst id rest

/-- Observable outcome of stopSrv: frames sent, the stop_called flag
after the call, the in_motion guard (stopSrv never modifies it), the
status of the frame its drain loop consumed for the original command
id (none when it drained nothing), the inbound frames remaining, and
whether the drain loop would block forever on the given inbound list. -/
structure StopOut where
  frames : List FrameOut
  stopCalledAfter : Bool
  inMotionAfter : Bool
  drained : Option Status
  queueAfter : List Frame
  blocked : Bool
deriving DecidableEq

/-- stopSrv (main.cpp lines 442-460): always send a stop frame (with
the response ignored when the pending command is homing, id 0x20); if a
command is in motion, additionally loop on recv_ack(last_cmd_id) until
it returns nonzero — consuming exactly one frame carrying that id,
whatever its status — and set stop_called so the pending motion service
aborts; in_motion itself is untouched. Without a pending command only
the stop frame is sent. -/
def stopSrv (in_motion stop_called : Bool) (last_cmd_id : Nat)
    (queue : List Frame) : StopOut :=
  if in_motion then
    match recvFirst last_cmd_id queue with
    | some (s, rest) =>
      { frames := [.stopCmd (decide (last_cmd_id = 0x20))], stopCalledAfter := true,
        inMotionAfter := in_motion, drained := some s, queueAfter := rest, blocked := false }
    | none =>
      { frames := [.stopCmd (decide (last_cmd_id = 0x20))], stopCalledAfter := stop_called,
        inMotionAfter := in_motion, drained := none, queueAfter := [], blocked := true }
  else
    { frames := [.stopCmd false], stopCalledAfter := stop_called,
      inMotionAfter := in_motion, drained := none, queueAfter := queue, blocked := false }

/-- The telemetry fields of gripper_response that the streaming read
thread maintains. -/
structure Telemetry where
  position : Rat
  speed : Rat
  f_motor : Rat
deriving DecidableEq

/-- One inbound message as the read thread sees it after msg_receive:
whether the receive succeeded (res >= 0), the id, the payload length,
the status carried in the 2-byte header (cmd_get_response_status), and
the little-endian float payload value (convert of data+2), both decode
helpers living in wsg50/cmd and msg, not under src. -/
structure PushMsg where
  recvOk : Bool
  id : Nat
  len : Nat
  status : Status
  val : Rat
deriving DecidableEq

/-- Observable outcome of one read-thread iteration: the updated
telemetry record, how many state publications
(publish_status_and_joint_states) were triggered, and the values of
the moving messages published. -/
structure ReadOut where
  infoAfter : Telemetry
  statePubs : Nat
  movingPubs : List Bool
deriving DecidableEq

/-- One iteration of the streaming-mode read thread body (main.cpp
lines 612-699): drop the message when the receive failed or it is
shorter than 2 bytes; for ids 0x43-0x45 with length 6 drop it when the
status is not E_SUCCESS, else decode the float; then demultiplex by id:
0x43 stores the opening and triggers exactly one state publication,
0x44 and 0x45 store speed and force, 0x21 classifies the motion ack and
publishes a moving message unless the status is E_ALREADY_RUNNING, and
0x22 and unknown ids do nothing (the latter only logged). -/
def read_thread_iter (info : Telemetry) (m : PushMsg) : ReadOut :=
  if ¬ m.recvOk ∨ m.len < 2 then
    { infoAfter := info, statePubs := 0, movingPubs := [] }
  else if 0x43 ≤ m.id ∧ m.id ≤ 0x45 ∧ m.len = 6 ∧ m.status ≠ .E_SUCCESS then
    { infoAfter := info, statePubs := 0, movingPubs := [] }
  else
    let val : Rat := if 0x43 ≤ m.id ∧ m.id ≤ 0x45 ∧ m.len = 6 then m.val else 0
    if m.id = 0x43 then
      { infoAfter := { info with position := val }, statePubs := 1, movingPubs := [] }
    else if m.id = 0x44 then
      { infoAfter := { info with speed := val }, statePubs := 0, movingPubs := [] }
    else if m.id = 0x45 then
      { infoAfter := { info with f_motor := val }, statePubs := 0, movingPubs := [] }
    else if m.id = 0x21 then
      let motion : Option Bool :=
        if m.status = .E_SUCCESS then some false
        else if m.status = .E_AXIS_BLOCKED then some false
        else if m.status = .E_CMD_PENDING then some true
        else if m.status = .E_ALREADY_RUNNING then none
        else some false
      { infoAfter := info, statePubs := 0,
        movingPubs := match motion with | some b => [b] | none => [] }
    else
      { infoAfter := info, statePubs := 0, movingPubs := [] }

/-- Startup size-class selection (main.cpp lines 771-777): any
configured size other than 210 or 110 is replaced, after a warning, by
the default 210; otherwise the configured size is used. The node
proceeds in either case. -/
def effectiveSize (size : Int) : Int :=
  if size ≠ 210 ∧ size ≠ 110 then 210 else size

/-! ### Helper lemmas about the shared motion tail -/

theorem runMotion_speedWarn (frame : FrameOut) (warn sendOk : Bool) (tbegin : Rat)
    (evts : List LoopEvt) : (runMotion frame warn sendOk tbegin evts).speedWarn = warn := by
  cases sendOk with
  | false => simp [runMotion]
  | true => cases h : awaitLoop tbegin evts <;> simp [runMotion, h]

theorem runMotion_frames_sendOk (frame : FrameOut) (warn : Bool) (tbegin : Rat)
    (evts : List LoopEvt) : (runMotion frame warn true tbegin evts).frames = [frame] := by
  cases h : awaitLoop tbegin evts <;> simp [runMotion, h]

/-! ### Claims -/

/-- Claim C10: at startup, any configured device size other than 110 or
210 does not make the node fail: after a warning the default 210 is
substituted, a configured 110 or 210 is kept, and so the effective size
used by range validation is always one of 110 and 210. -/
theorem c10_size_class_default (size : Int) :
    (effectiveSize size = 110 ∨ effectiveSize size = 210) ∧
    (size ≠ 210 ∧ size ≠ 110 → effectiveSize size = 210) ∧
    (size = 210 ∨ size = 110 → effectiveSize size = size) := by
  refine ⟨?_, ?_, ?_⟩
  · by_cases h : size ≠ 210 ∧ size ≠ 110
    · simp [effectiveSize, h]
    · simp only [effectiveSize, h, if_false]
      tauto
  · intro h; simp [effectiveSize, h]
  · rintro (h | h) <;> simp [effectiveSize, h]

theorem c10_size_class_default_witness :
    effectiveSize 77 = 210 ∧ effectiveSize 110 = 110 :=
  ⟨(c10_size_class_default 77).2.1 (by decide),
   (c10_size_class_default 110).2.2 (Or.inr rfl)⟩

/-- Claim C6: a move, grasp or release request whose target width lies
outside [0, deviceSize] is hard-rejected with E_RANGE_ERROR (and a
false handler return) and no frame is sent on the transport. -/
theorem c6_range_hard_reject (g : Rat) (req : MoveReq) (sendOk : Bool) (tbegin : Rat)
    (evts : List LoopEvt) (h : req.width < 0 ∨ req.width > g) :
    ((moveSrv g false req sendOk tbegin evts).error = some (.st .E_RANGE_ERROR) ∧
      (moveSrv g false req sendOk tbegin evts).frames = [] ∧
      (moveSrv g false req sendOk tbegin evts).retval = false) ∧
    ((graspSrv g false req sendOk tbegin evts).error = some (.st .E_RANGE_ERROR) ∧
      (graspSrv g false req sendOk tbegin evts).frames = [] ∧
      (graspSrv g false req sendOk tbegin evts).retval = false) ∧
    ((releaseSrv g false req sendOk tbegin evts).error = some (.st .E_RANGE_ERROR) ∧
      (releaseSrv g false req sendOk tbegin evts).frames = [] ∧
      (releaseSrv g false req sendOk tbegin evts).retval = false) := by
  simp [moveSrv, graspSrv, releaseSrv, h]

theorem c6_range_hard_reject_witness :
    (moveSrv 210 false ⟨250, 10⟩ true 0 []).error = some (.st .E_RANGE_ERROR) ∧
    (moveSrv 210 false ⟨250, 10⟩ true 0 []).frames = [] := by
  have h := c6_range_hard_reject 210 ⟨250, 10⟩ true 0 [] (Or.inr (by norm_num))
  exact ⟨h.1.1, h.1.2.1⟩

/-- Claim C9: an incremental-move request (issued while no motion
command is outstanding) whose direction is neither "open" nor "close"
sends no frame, leaves the single-flight guard unchanged, and returns
true with the response error field never assigned. -/
theorem c9_invalid_direction (g cur inc : Rat) (d : String) (sendOk : Bool)
    (tbegin : Rat) (evts : List LoopEvt) (h1 : d ≠ "open") (h2 : d ≠ "close") :
    (incrementSrv g false cur ⟨d, inc⟩ sendOk tbegin evts).frames = [] ∧
    (incrementSrv g false cur ⟨d, inc⟩ sendOk tbegin evts).inMotionAfter = false ∧
    (incrementSrv g false cur ⟨d, inc⟩ sendOk tbegin evts).error = none ∧
    (incrementSrv g false cur ⟨d, inc⟩ sendOk tbegin evts).retval = true := by
  simp [incrementSrv, h1, h2]

theorem c9_invalid_direction_witness :
    (incrementSrv 210 false 100 ⟨"down", 5⟩ true 0 []).error = none ∧
    (incrementSrv 210 false 100 ⟨"down", 5⟩ true 0 []).frames = [] := by
  have h := c9_invalid_direction 210 100 5 "down" true 0 [] (by decide) (by decide)
  exact ⟨h.2.2.1, h.1⟩

/-- Claim C1: evaluating the stopSrv drain on a reachable inbound frame
list — the interim E_CMD_PENDING ack of the cancelled move (id 0x21)
arrived but was not yet consumed by the awaiting service when stop ran,
followed by the terminal E_CMD_ABORTED frame. The drain loop, which
only repeats while recv_ack returns 0, stops at the first frame for the
id: it consumes the non-terminal pending frame, sets stop_called (so
the caller gets Aborted and the guard is then released), and leaves the
terminal frame queued — and that stale terminal frame is exactly what
the next command awaiting id 0x21 receives first. This contradicts the
claimed guarantee that exactly one terminal frame is consumed and that
a later command never observes the stale frame. -/
theorem c1_cancellation_drain_bug :
    (stopSrv true false 0x21
        [⟨0x21, .E_CMD_PENDING⟩, ⟨0x21, .E_CMD_ABORTED⟩]).frames = [.stopCmd false] ∧
    (stopSrv true false 0x21
        [⟨0x21, .E_CMD_PENDING⟩, ⟨0x21, .E_CMD_ABORTED⟩]).stopCalledAfter = true ∧
    (stopSrv true false 0x21
        [⟨0x21, .E_CMD_PENDING⟩, ⟨0x21, .E_CMD_ABORTED⟩]).drained = some .E_CMD_PENDING ∧
    (stopSrv true false 0x21
        [⟨0x21, .E_CMD_PENDING⟩, ⟨0x21, .E_CMD_ABORTED⟩]).queueAfter
        = [⟨0x21, .E_CMD_ABORTED⟩] ∧
    recvFirst 0x21
        (stopSrv true false 0x21
          [⟨0x21, .E_CMD_PENDING⟩, ⟨0x21, .E_CMD_ABORTED⟩]).queueAfter
        = some (.E_CMD_ABORTED, []) := by
  decide

/-- Claim C4, counterexample: a move cancelled by stop reaches the
Aborted terminal outcome and releases the in_motion guard immediately,
without the 0.1 s settle sleep — refuting the claim that the settle
delay elapses after every terminal transition. -/
theorem c4_abort_no_settle_cex :
    (moveSrv 210 false ⟨50, 100⟩ true 0 [⟨.noMsg, 1, true⟩]).error
        = some (.st .E_CMD_ABORTED) ∧
    (moveSrv 210 false ⟨50, 100⟩ true 0 [⟨.noMsg, 1, true⟩]).inMotionAfter = false ∧
    (moveSrv 210 false ⟨50, 100⟩ true 0 [⟨.noMsg, 1, true⟩]).slept = false := by
  decide

/-- Claim C5, counterexample: the speed 1/20 = 0.05 lies outside the
physical envelope [0.1, 420.0], yet moveSrv emits no warning for it
(the code only warns below 0.0 or above 420.0) while still sending the
frame with the original speed. -/
theorem c5_low_speed_unflagged_cex :
    ((1 : Rat) / 20 < 1 / 10) ∧
    (moveSrv 210 false ⟨50, 1 / 20⟩ true 0 [⟨.msg .E_SUCCESS, 1, false⟩]).speedWarn
        = false ∧
    (moveSrv 210 false ⟨50, 1 / 20⟩ true 0 [⟨.msg .E_SUCCESS, 1, false⟩]).frames
        = [.moveCmd 50 (1 / 20) false] := by
  refine ⟨by norm_num, ?_, ?_⟩ <;>
  · norm_num [moveSrv, runMotion, awaitLoop, timeout_commands]
    simp

/-- Claim C2: while the in_motion single-flight guard is held, every
attempt of move, grasp, release and increment is rejected with
E_ALREADY_RUNNING without sending a frame and without touching the
guard, homing is rejected (false return; its Empty response has no
error field) without sending a frame, and stopSrv always sends its stop
frame whatever the state. -/
theorem c2_single_flight :
    (∀ g req sendOk tbegin evts,
        (moveSrv g true req sendOk tbegin evts).error = some (.st .E_ALREADY_RUNNING) ∧
        (moveSrv g true req sendOk tbegin evts).frames = [] ∧
        (moveSrv g true req sendOk tbegin evts).inMotionAfter = true) ∧
    (∀ g req sendOk tbegin evts,
        (graspSrv g true req sendOk tbegin evts).error = some (.st .E_ALREADY_RUNNING) ∧
        (graspSrv g true req sendOk tbegin evts).frames = [] ∧
        (graspSrv g true req sendOk tbegin evts).inMotionAfter = true) ∧
    (∀ g req sendOk tbegin evts,
        (releaseSrv g true req sendOk tbegin evts).error = some (.st .E_ALREADY_RUNNING) ∧
        (releaseSrv g true req sendOk tbegin evts).frames = [] ∧
        (releaseSrv g true req sendOk tbegin evts).inMotionAfter = true) ∧
    (∀ g cur req sendOk tbegin evts,
        (incrementSrv g true cur req sendOk tbegin evts).error
            = some (.st .E_ALREADY_RUNNING) ∧
        (incrementSrv g true cur req sendOk tbegin evts).frames = [] ∧
        (incrementSrv g true cur req sendOk tbegin evts).inMotionAfter = true) ∧
    (∀ sendOk tbegin evts,
        (homingSrv true sendOk tbegin evts).retval = false ∧
        (homingSrv true sendOk tbegin evts).frames = []) ∧
    (∀ im sc lci q, ∃ b, (stopSrv im sc lci q).frames = [.stopCmd b]) := by
  refine ⟨?_, ?_, ?_, ?_, ?_, ?_⟩
  · intro g req sendOk tbegin evts; simp [moveSrv]
  · intro g req sendOk tbegin evts; simp [graspSrv]
  · intro g req sendOk tbegin evts; simp [releaseSrv]
  · intro g cur req sendOk tbegin evts; simp [incrementSrv]
  · intro sendOk tbegin evts; simp [homingSrv]
  · intro im sc lci q
    cases im with
    | false => exact ⟨false, by simp [stopSrv]⟩
    | true =>
      rcases h : recvFirst lci q with _ | ⟨s, rest⟩
      · exact ⟨decide (lci = 0x20), by simp [stopSrv, h]⟩
      · exact ⟨decide (lci = 0x20), by simp [stopSrv, h]⟩

/-- Claim C8: in streaming mode, a validly received push frame with the
opening id 0x43 (length 6, status E_SUCCESS) stores its decoded value
as the telemetry position and triggers exactly one state publication;
a frame whose receive failed or that is shorter than 2 bytes, and a
length-6 telemetry frame for ids 0x43-0x45 whose status is not
E_SUCCESS, change nothing and trigger no publication. -/
theorem c8_streaming_telemetry :
    (∀ (info : Telemetry) (v : Rat),
        read_thread_iter info ⟨true, 0x43, 6, .E_SUCCESS, v⟩ =
          { infoAfter := { info with position := v }, statePubs := 1, movingPubs := [] }) ∧
    (∀ (info : Telemetry) (m : PushMsg), (¬ m.recvOk ∨ m.len < 2) →
        read_thread_iter info m =
          { infoAfter := info, statePubs := 0, movingPubs := [] }) ∧
    (∀ (info : Telemetry) (m : PushMsg),
        0x43 ≤ m.id → m.id ≤ 0x45 → m.len = 6 → m.status ≠ .E_SUCCESS →
        read_thread_iter info m =
          { infoAfter := info, statePubs := 0, movingPubs := [] }) := by
  refine ⟨?_, ?_, ?_⟩
  · intro info v; simp [read_thread_iter]
  · intro info m h
    unfold read_thread_iter
    rw [if_pos h]
  · intro info m h1 h2 h3 h4
    by_cases hr : m.recvOk <;> simp [read_thread_iter, hr, h1, h2, h3, h4]

/-- In the shared await loop the deadline is compared against the fixed
issuance time tbegin, so interim E_CMD_PENDING statuses do not extend
it: any iteration observing a clock past tbegin + timeout turns the run
fatal, provided no stop arrived and no terminal message was delivered
earlier. -/
theorem awaitLoop_fatal_of_expiry (tbegin : Rat) (evts : List LoopEvt)
    (hstop : ∀ e ∈ evts, e.stopCall = false)
    (hnt : ∀ e ∈ evts, e.recv = .noMsg ∨ e.recv = .msg .E_CMD_PENDING)
    (hex : ∃ e ∈ evts, e.t - tbegin > timeout_commands) :
    awaitLoop tbegin evts = .fatal := by
  induction evts with
  | nil => simp at hex
  | cons e rest ih =>
    have hs := hstop e (by simp)
    by_cases ht : e.t - tbegin > timeout_commands
    · simp [awaitLoop, hs, ht]
    · have hex' : ∃ x ∈ rest, x.t - tbegin > timeout_commands := by
        rcases hex with ⟨x, hx, hxt⟩
        rcases List.mem_cons.mp hx with rfl | hx'
        · exact absurd hxt ht
        · exact ⟨x, hx', hxt⟩
      have hrest := ih (fun x hx => hstop x (List.mem_cons_of_mem _ hx))
        (fun x hx => hnt x (List.mem_cons_of_mem _ hx)) hex'
      rcases hnt e (by simp) with h | h <;> simp [awaitLoop, hs, ht, h, hrest]

/-- Claim C3: a move command that never receives a terminal frame
(recv_ack yields only no-message or E_CMD_PENDING results, with no
stop) is terminated fatally by quit as soon as an iteration observes
the clock beyond the deadline measured from issuance — interim
E_CMD_PENDING statuses do not reset it — and no timeout error is ever
assigned to the caller's response. -/
theorem c3_timeout_fatal (g tbegin : Rat) (req : MoveReq) (evts : List LoopEvt)
    (hw : ¬ (req.width < 0 ∨ req.width > g))
    (hstop : ∀ e ∈ evts, e.stopCall = false)
    (hnt : ∀ e ∈ evts, e.recv = .noMsg ∨ e.recv = .msg .E_CMD_PENDING)
    (hex : ∃ e ∈ evts, e.t - tbegin > timeout_commands) :
    (moveSrv g false req true tbegin evts).fatal = true ∧
    (moveSrv g false req true tbegin evts).error = none ∧
    (moveSrv g false req true tbegin evts).inMotionAfter = true := by
  have h := awaitLoop_fatal_of_expiry tbegin evts hstop hnt hex
  simp [moveSrv, hw, runMotion, h]

theorem c3_timeout_fatal_witness :
    (moveSrv 210 false ⟨50, 100⟩ true 0
      [⟨.noMsg, 10, false⟩, ⟨.msg .E_CMD_PENDING, 20, false⟩,
       ⟨.noMsg, 31, false⟩]).fatal = true :=
  (c3_timeout_fatal 210 0 ⟨50, 100⟩
    [⟨.noMsg, 10, false⟩, ⟨.msg .E_CMD_PENDING, 20, false⟩, ⟨.noMsg, 31, false⟩]
    (by norm_num) (by decide) (by decide)
    ⟨⟨.noMsg, 31, false⟩, by decide, by norm_num [timeout_commands]⟩).1

/-- Claim C4, amended: after a Completed terminal transition (device
terminal status or recv_ack error) the 0.1 s settle sleep runs before
the in_motion guard is released, for the shared motion tail as well as
for homing; after an Aborted transition (stop while pending) the guard
is released immediately, without the settle sleep. -/
theorem c4_settle_delay_amended (frame : FrameOut) (warn : Bool) (tbegin : Rat)
    (evts : List LoopEvt) :
    (∀ r, awaitLoop tbegin evts = .finished r →
        (runMotion frame warn true tbegin evts).slept = true ∧
        (runMotion frame warn true tbegin evts).inMotionAfter = false) ∧
    (awaitLoop tbegin evts = .aborted →
        (runMotion frame warn true tbegin evts).slept = false ∧
        (runMotion frame warn true tbegin evts).inMotionAfter = false ∧
        (runMotion frame warn true tbegin evts).error = some (.st .E_CMD_ABORTED)) ∧
    (∀ r, homingLoop tbegin evts = .finished r →
        (homingSrv false true tbegin evts).slept = true ∧
        (homingSrv false true tbegin evts).inMotionAfter = false) := by
  refine ⟨?_, ?_, ?_⟩
  · intro r h; simp [runMotion, h]
  · intro h; simp [runMotion, h]
  · intro r h; simp [homingSrv, h]

theorem c4_settle_delay_amended_witness :
    (runMotion (.moveCmd 50 100 false) false true 0
        [⟨.msg .E_SUCCESS, 1, false⟩]).slept = true ∧
    (runMotion (.moveCmd 50 100 false) false true 0
        [⟨.noMsg, 1, true⟩]).slept = false :=
  ⟨((c4_settle_delay_amended (.moveCmd 50 100 false) false 0
      [⟨.msg .E_SUCCESS, 1, false⟩]).1 (.msg .E_SUCCESS)
      (by norm_num [awaitLoop, timeout_commands]; decide)).1,
   ((c4_settle_delay_amended (.moveCmd 50 100 false) false 0
      [⟨.noMsg, 1, true⟩]).2.1 (by norm_num [awaitLoop])).1⟩

/-- Claim C5, amended: for move, grasp and release requests with a
valid target width, the speed warning is emitted exactly when the
speed is below 0.0 or above 420.0 (values in [0.0, 0.1) pass silently
although they lie outside the physical envelope), and in every case
the frame is sent carrying the caller's original unclamped speed. -/
theorem c5_speed_advisory_amended (g tbegin : Rat) (req : MoveReq)
    (evts : List LoopEvt) (hw : ¬ (req.width < 0 ∨ req.width > g)) :
    ((moveSrv g false req true tbegin evts).speedWarn = true ↔
        (req.speed < 0 ∨ req.speed > 420)) ∧
    (moveSrv g false req true tbegin evts).frames
        = [.moveCmd req.width req.speed false] ∧
    ((graspSrv g false req true tbegin evts).speedWarn = true ↔
        (req.speed < 0 ∨ req.speed > 420)) ∧
    (graspSrv g false req true tbegin evts).frames = [.graspCmd req.width req.speed] ∧
    ((releaseSrv g false req true tbegin evts).speedWarn = true ↔
        (req.speed < 0 ∨ req.speed > 420)) ∧
    (releaseSrv g false req true tbegin evts).frames
        = [.releaseCmd req.width req.speed] := by
  by_cases hs : req.speed < 0 ∨ req.speed > 420 <;>
    simp [moveSrv, graspSrv, releaseSrv, hw, hs,
      runMotion_speedWarn, runMotion_frames_sendOk]

theorem c5_speed_advisory_amended_witness :
    (moveSrv 210 false ⟨50, 500⟩ true 0 [⟨.msg .E_SUCCESS, 1, false⟩]).speedWarn
        = true ∧
    (moveSrv 210 false ⟨50, 500⟩ true 0 [⟨.msg .E_SUCCESS, 1, false⟩]).frames
        = [.moveCmd 50 500 false] := by
  have h := c5_speed_advisory_amended 210 0 ⟨50, 500⟩
    [⟨.msg .E_SUCCESS, 1, false⟩] (by norm_num)
  exact ⟨h.1.mpr (Or.inr (by norm_num)), h.2.1⟩

/-- Claim C7: an incremental move issued while idle, with nonnegative
increment and a current opening within [0, deviceSize], commands the
absolute target currentOpening plus (direction open) or minus
(direction close) the increment, clamped to [0, deviceSize], and the
commanded speed drops to the low safety speed 1 exactly when the
target sits at the approached travel limit (in particular whenever the
clamp binds), the normal default being 20. -/
theorem c7_increment_clamp (g cur inc tbegin : Rat) (evts : List LoopEvt)
    (hinc : 0 ≤ inc) (hcur0 : 0 ≤ cur) (hcurg : cur ≤ g) :
    (incrementSrv g false cur ⟨"open", inc⟩ true tbegin evts).frames =
      [.moveCmd (max 0 (min (cur + inc) g)) (if g ≤ cur + inc then 1 else 20) true] ∧
    (incrementSrv g false cur ⟨"close", inc⟩ true tbegin evts).frames =
      [.moveCmd (max 0 (min (cur - inc) g)) (if cur - inc ≤ 0 then 1 else 20) true] := by
  have hg0 : (0 : Rat) ≤ g := hcur0.trans hcurg
  constructor
  · rcases le_or_lt g (cur + inc) with h | h
    · simp [incrementSrv, runMotion_frames_sendOk, GRIPPER_MIN_OPEN, h,
        min_eq_right h, max_eq_right hg0]
    · have h' : ¬ g ≤ cur + inc := not_le.mpr h
      simp [incrementSrv, runMotion_frames_sendOk, GRIPPER_MIN_OPEN, h',
        min_eq_left h.le, max_eq_right (add_nonneg hcur0 hinc)]
  · have hle : cur - inc ≤ g := (sub_le_self cur hinc).trans hcurg
    rcases le_or_lt (cur - inc) 0 with h | h
    · simp [incrementSrv, runMotion_frames_sendOk, GRIPPER_MIN_OPEN, h,
        min_eq_left hle, max_eq_left h]
    · have h' : ¬ cur - inc ≤ 0 := not_le.mpr h
      simp [incrementSrv, runMotion_frames_sendOk, GRIPPER_MIN_OPEN, h',
        min_eq_left hle, max_eq_right h.le]

theorem c7_increment_clamp_witness :
    (incrementSrv 210 false 208 ⟨"open", 5⟩ true 0
        [⟨.msg .E_SUCCESS, 1, false⟩]).frames = [.moveCmd 210 1 true] := by
  have h := (c7_increment_clamp 210 208 5 0 [⟨.msg .E_SUCCESS, 1, false⟩]
    (by norm_num) (by norm_num) (by norm_num)).1
  rw [h]
  norm_num

theorem c8_streaming_telemetry_witness :
    read_thread_iter ⟨0, 0, 0⟩ ⟨true, 0x43, 6, .E_SUCCESS, 7⟩ =
      { infoAfter := ⟨7, 0, 0⟩, statePubs := 1, movingPubs := [] } ∧
    read_thread_iter ⟨0, 0, 0⟩ ⟨false, 0x43, 6, .E_SUCCESS, 7⟩ =
      { infoAfter := ⟨0, 0, 0⟩, statePubs := 0, movingPubs := [] } ∧
    read_thread_iter ⟨0, 0, 0⟩ ⟨true, 0x43, 6, .other 11, 7⟩ =
      { infoAfter := ⟨0, 0, 0⟩, statePubs := 0, movingPubs := [] } :=
  ⟨c8_streaming_telemetry.1 ⟨0, 0, 0⟩ 7,
   c8_streaming_telemetry.2.1 ⟨0, 0, 0⟩ _ (by decide),
   c8_streaming_telemetry.2.2 ⟨0, 0, 0⟩ _ (by decide) (by decide) (by decide) (by decide)⟩

end Wsg50
